import Mathlib

/-!
Verification of the CHARMTwinsights model-execution gateway
(`app/model_server/model_server/main.py`).

The development shallowly embeds the gateway's pure data and control flow:
the shared volume is an association list from file names to file contents,
a model container (an external collaborator, spec section 6) is modelled by
the effect one invocation has on the session, namely whether the docker call
raises, the contents it may write to the session's output file, and the
combined stdout+stderr text it returns.  Python's `json.dump`/`json.loads`
are abstracted as an encode function `String`-ward and a decode function
returning `Option`, passed in as parameters.
-/

set_option autoImplicit false

/-- JSON-shaped values exchanged with model containers. -/
inductive Json where
  | null : Json
  | bool (b : Bool) : Json
  | num (n : Int) : Json
  | str (s : String) : Json
  | arr (elems : List Json) : Json
  | obj (fields : List (String × Json)) : Json

/-- Python truthiness of a JSON value (`not value` in the source). -/
def Json.truthy : Json → Bool
  | Json.null => false
  | Json.bool b => b
  | Json.num n => !(n == 0)
  | Json.str s => !(s == "")
  | Json.arr es => !es.isEmpty
  | Json.obj fs => !fs.isEmpty

/-- The shared volume `/shared-tmp`: file name to file contents. -/
structure FS where
  files : List (String × String)

def FS.existsFile (fs : FS) (p : String) : Bool :=
  fs.files.any (fun kv => kv.1 == p)

def FS.read (fs : FS) (p : String) : Option String :=
  (fs.files.find? (fun kv => kv.1 == p)).map (fun kv => kv.2)

def FS.write (fs : FS) (p c : String) : FS :=
  FS.mk ((p, c) :: fs.files.filter (fun kv => kv.1 != p))

def FS.remove (fs : FS) (p : String) : FS :=
  FS.mk (fs.files.filter (fun kv => kv.1 != p))

/-- `os.remove` guarded by `os.path.exists`, as in the cleanup loop. -/
def removeIfExists (fs : FS) (p : String) : FS :=
  if fs.existsFile p then fs.remove p else fs

/-! ## Character-level string helpers (Python `strip`, `split`, `in`) -/

def trimLeadChars : List Char → List Char
  | [] => []
  | c :: cs => if c.isWhitespace then trimLeadChars cs else c :: cs

/-- Python `str.strip()`: drop leading and trailing whitespace. -/
def strTrim (s : String) : String :=
  String.mk (List.reverse (trimLeadChars (List.reverse (trimLeadChars s.data))))

def splitLinesAux : List Char → List Char → List String
  | [], acc => [String.mk acc.reverse]
  | c :: cs, acc =>
      if c == '\n' then String.mk acc.reverse :: splitLinesAux cs []
      else splitLinesAux cs (c :: acc)

/-- Python `str.split(chr(10))`. -/
def splitLines (s : String) : List String :=
  splitLinesAux s.data []

def charLead : List Char → List Char → Bool
  | [], _ => true
  | _ :: _, [] => false
  | a :: as, b :: bs => a == b && charLead as bs

def charContains : List Char → List Char → Bool
  | [], needle => needle.isEmpty
  | l@(_ :: rest), needle => charLead needle l || charContains rest needle

/-- Python `pat in s` substring test. -/
def containsSubstr (s pat : String) : Bool :=
  charContains s.data pat.data

/-! ## Output classification (source lines 130-154) -/

/-- The fixed `stderr_indicators` list from the source. -/
def stderrIndicators : List String :=
  ["Loading", "Processing", "Generated", "written to", "Error:", "Warning:",
   "Model loaded", "Completed processing", "records", "Starting", "Successfully generated"]

/-- A line is stderr-like when it contains one of the marker substrings. -/
def isStderrLine (line : String) : Bool :=
  stderrIndicators.any (fun phrase => containsSubstr line phrase)

/-- The classification loop over the split lines: strip each line,
skip blanks, route marker lines to stderr and the rest to stdout. -/
def classifyLoop : List String → List String × List String
  | [] => ([], [])
  | l :: ls =>
      let line := strTrim l
      let rest := classifyLoop ls
      if line == "" then rest
      else if isStderrLine line then (rest.1, line :: rest.2)
      else (line :: rest.1, rest.2)

/-- Classify the raw combined container output into (stdout, stderr) text. -/
def classifyOutput (raw : String) : String × String :=
  let parts := classifyLoop (splitLines raw)
  (strTrim (String.intercalate "\n" parts.1), strTrim (String.intercalate "\n" parts.2))

/-! ## Container model -/

/-- The observable effect of one docker `containers.run` invocation of a
model container on its execution session: the container may write the
session's output file, the call returns the combined stdout+stderr bytes,
and the call may raise (for instance `ContainerError` on nonzero exit,
raised after the container has run and produced its writes). -/
structure ContainerAct where
  writesOutput : Option String
  combined : String
  raises : Bool

/-- How a given image behaves under each of the two invocation protocols. -/
structure ContainerBehavior where
  twoArg : ContainerAct
  oneArg : ContainerAct

/-- Observable side effects recorded by the gateway model. -/
inductive Event where
  | containerRun (image : String) (command : List String)
deriving DecidableEq

/-! ## Session paths (source lines 60-65) -/

def inputFileName (sid : String) : String := "input_" ++ sid ++ ".json"
def outputFileName (sid : String) : String := "output_" ++ sid ++ ".json"
def inputPath (sid : String) : String := "/shared-tmp/" ++ inputFileName sid
def outputPath (sid : String) : String := "/shared-tmp/" ++ outputFileName sid

def twoArgCmd (sid : String) : List String :=
  ["./predict", inputPath sid, outputPath sid]

def oneArgCmd (sid : String) : List String :=
  ["./predict", inputPath sid]

/-- Apply a container invocation's file-system effect to the session. -/
def applyAct (fs : FS) (outPath : String) (act : ContainerAct) : FS :=
  match act.writesOutput with
  | some c => fs.write outPath c
  | none => fs

/-- The shared volume right after the two-argument protocol attempt:
the input file has been written, and the container has acted. -/
def fsAfterTwoArg (enc : Json → String) (beh : ContainerBehavior)
    (inputData : Json) (sid : String) (fs0 : FS) : FS :=
  applyAct (fs0.write (inputPath sid) (enc inputData)) (outputPath sid) beh.twoArg

/-! ## `_run_model_container` -/

inductive RunError where
  | executionFailed (msg : String)
  | outputInvalidJson (msg : String)

def runErrorMsg : RunError → String
  | RunError.executionFailed m => m
  | RunError.outputInvalidJson m => m

structure ModelLogs where
  input_file : String
  output_file : String
  session_id : String

structure RunResult where
  predictions : Json
  stdout : String
  stderr : String
  model_logs : ModelLogs

/-- Common tail of `_run_model_container` once the protocol negotiation is
done (source lines 127-174): classify the raw combined output, re-check the
output file, and decode it as the predictions. -/
def finishRun (dec : String → Option Json) (sid raw : String) (fs : FS)
    (evs : List Event) : Except RunError RunResult × FS × List Event :=
  let parts := classifyOutput raw
  if fs.existsFile (outputPath sid) = false then
    (Except.error (RunError.executionFailed
        ("Model execution failed: Model did not create output file: " ++ outputFileName sid)),
     fs, evs)
  else
    match fs.read (outputPath sid) with
    | none =>
        (Except.error (RunError.executionFailed
            ("Model execution failed: Model did not create output file: " ++ outputFileName sid)),
         fs, evs)
    | some contents =>
        match dec contents with
        | none =>
            (Except.error (RunError.outputInvalidJson
                "Model output file contains invalid JSON"), fs, evs)
        | some preds =>
            (Except.ok { predictions := preds, stdout := parts.1, stderr := parts.2,
                         model_logs := { input_file := inputFileName sid,
                                         output_file := outputFileName sid,
                                         session_id := sid } }, fs, evs)

/-- The body of `_run_model_container` before the `finally` cleanup
(source lines 67-181): write the input file, try the two-argument protocol,
and on any exception from that attempt (a docker raise, or the raise for a
missing output file) fall back to the legacy single-argument protocol. -/
def runModelContainerBody (dec : String → Option Json) (enc : Json → String)
    (image : String) (beh : ContainerBehavior) (inputData : Json) (sid : String)
    (fs0 : FS) : Except RunError RunResult × FS × List Event :=
  let fs2 := fsAfterTwoArg enc beh inputData sid fs0
  if !beh.twoArg.raises && fs2.existsFile (outputPath sid) then
    finishRun dec sid beh.twoArg.combined fs2 [Event.containerRun image (twoArgCmd sid)]
  else
    let fs3 := applyAct fs2 (outputPath sid) beh.oneArg
    let evs := [Event.containerRun image (twoArgCmd sid), Event.containerRun image (oneArgCmd sid)]
    if beh.oneArg.raises then
      (Except.error (RunError.executionFailed
          "Model execution failed: ContainerError"), fs3, evs)
    else
      match dec (strTrim beh.oneArg.combined) with
      | none =>
          (Except.error (RunError.executionFailed
              "Model execution failed: Legacy pattern failed - stdout is not valid JSON"),
           fs3, evs)
      | some preds =>
          finishRun dec sid beh.oneArg.combined (fs3.write (outputPath sid) (enc preds)) evs

/-- The `finally` block (source lines 182-186): remove the session's input
and output files from the shared volume when they exist. -/
def cleanupSession (sid : String) (fs : FS) : FS :=
  removeIfExists (removeIfExists fs (inputPath sid)) (outputPath sid)

/-- `_run_model_container`: the body followed by the unconditional cleanup,
which runs whether the body returns or raises. -/
def runModelContainer (dec : String → Option Json) (enc : Json → String)
    (image : String) (beh : ContainerBehavior) (inputData : Json) (sid : String)
    (fs0 : FS) : Except RunError RunResult × FS × List Event :=
  let out := runModelContainerBody dec enc image beh inputData sid fs0
  (out.1, cleanupSession sid out.2.1, out.2.2)

def exceptIsOk {ε α : Type} : Except ε α → Bool
  | Except.ok _ => true
  | Except.error _ => false

/-! ## Registry (`models_collection`) and registration -/

/-- A persisted `RegisteredModel` document (spec section 3; source lines 279-286). -/
structure RegisteredModel where
  image : String
  title : String
  short_description : String
  authors : String
  readme : String
  examples : Json

/-- The Mongo `models` collection: document order is insertion order. -/
abbrev Registry := List RegisteredModel

/-- `models_collection.replace_one(filterByImage, doc, upsert=True)`: replace
the first document with the given image tag, or append when none matches. -/
def replaceOne (reg : Registry) (img : String) (doc : RegisteredModel) : Registry :=
  match reg with
  | [] => [doc]
  | m :: ms => if m.image == img then doc :: ms else m :: replaceOne ms img doc

/-- Metadata handed to `_register_model_internal` after merging and validation. -/
structure Metadata where
  image : String
  title : String
  short_description : String
  authors : String
  readme : String
  examples : Json

def mkDoc (md : Metadata) : RegisteredModel :=
  { image := md.image, title := md.title, short_description := md.short_description,
    authors := md.authors, readme := md.readme, examples := md.examples }

/-- A successful registration response (source lines 291-299). -/
structure RegOk where
  status : String
  image : String
  example_predictions : Json
  reg_stdout : String
  reg_stderr : String

/-- `_register_model_internal` (source lines 254-302): check the image
exists locally, dry-run it against its own examples, and only then upsert
the document; any failure re-raises without touching the registry. -/
def registerModelInternal (dec : String → Option Json) (enc : Json → String)
    (localExists : Bool) (beh : ContainerBehavior) (sid : String) (md : Metadata)
    (reg : Registry) (fs : FS) : Except String RegOk × Registry × FS :=
  if localExists then
    let run := runModelContainer dec enc md.image beh md.examples sid fs
    match run.1 with
    | Except.ok r =>
        (Except.ok { status := "ok", image := md.image, example_predictions := r.predictions,
                     reg_stdout := r.stdout, reg_stderr := r.stderr },
         replaceOne reg md.image (mkDoc md), run.2.1)
    | Except.error e => (Except.error (runErrorMsg e), reg, run.2.1)
  else
    (Except.error ("Image not found locally: " ++ md.image), reg, fs)

/-- The fields of a `POST /models` request body. -/
structure RegisterRequest where
  image : String
  title : String
  short_description : String
  authors : String
  examples : Option Json
  readme : Option String

/-- Result of `_extract_container_metadata` for the requested image:
either field may be absent when the image does not hold the source file. -/
structure ExtractedMeta where
  readme : Option String
  examples : Option Json

/-- The docker-side environment one registration request runs against. -/
structure RegEnv where
  pullSucceeds : Bool
  localImageExists : Bool
  extracted : ExtractedMeta
  beh : ContainerBehavior
  sid : String

/-- Merge for `POST /models` (source line 425): the caller value wins
whenever it is not `None`, otherwise the container-extracted value. -/
def mergedExamples (req : RegisterRequest) (ext : ExtractedMeta) : Option Json :=
  match req.examples with
  | some e => some e
  | none => ext.examples

/-- Merge for `POST /models` (source line 426), `is not None` semantics. -/
def mergedReadme (req : RegisterRequest) (ext : ExtractedMeta) : Option String :=
  match req.readme with
  | some r => some r
  | none => ext.readme

/-- The metadata dict built by `register_model` once both fields are present. -/
def mdOf (req : RegisterRequest) (e : Json) (r : String) : Metadata :=
  { image := req.image, title := req.title, short_description := req.short_description,
    authors := req.authors, readme := r, examples := e }

structure HttpError where
  status : Nat
  detail : String
deriving DecidableEq

/-- `POST /models` (`register_model`, source lines 406-446): pull is
attempted with failures swallowed, container metadata fills caller gaps,
presence of both fields is validated, and `_register_model_internal` does
the rest; its errors surface as HTTP 400. -/
def registerModel (dec : String → Option Json) (enc : Json → String)
    (env : RegEnv) (req : RegisterRequest) (reg : Registry) (fs : FS) :
    Except HttpError RegOk × Registry × FS :=
  match mergedExamples req env.extracted with
  | none =>
      (Except.error (HttpError.mk 400
        "Examples are required. Provide via API examples field or include /app/examples.json in container."),
       reg, fs)
  | some e =>
      match mergedReadme req env.extracted with
      | none =>
          (Except.error (HttpError.mk 400
            "README is required. Provide via API readme field or include /app/README.md in container."),
           reg, fs)
      | some r =>
          let out := registerModelInternal dec enc
            (env.localImageExists || env.pullSucceeds) env.beh env.sid (mdOf req e r) reg fs
          match out.1 with
          | Except.ok okr => (Except.ok okr, out.2.1, out.2.2)
          | Except.error msg =>
              (Except.error (HttpError.mk 400 ("Registration failed: " ++ msg)),
               out.2.1, out.2.2)

structure PredictResponse where
  predictions : Json
  stdout : String
  stderr : String

/-- `POST /predict` (source lines 448-468): a registry lookup guards the
container run; an unknown image is HTTP 404 and nothing else happens. -/
def predict (dec : String → Option Json) (enc : Json → String)
    (beh : ContainerBehavior) (sid : String) (image : String) (input : Json)
    (reg : Registry) (fs : FS) :
    Except HttpError PredictResponse × FS × List Event :=
  match reg.find? (fun m => m.image == image) with
  | none => (Except.error (HttpError.mk 404 "Model not registered"), fs, [])
  | some _ =>
      let out := runModelContainer dec enc image beh input sid fs
      match out.1 with
      | Except.ok r =>
          (Except.ok { predictions := r.predictions, stdout := r.stdout, stderr := r.stderr },
           out.2.1, out.2.2)
      | Except.error e =>
          (Except.error (HttpError.mk 500 ("Prediction failed: " ++ runErrorMsg e)),
           out.2.1, out.2.2)

/-! ## Startup bootstrap (`load_builtin_models`, `startup_event`) -/

/-- One built-in model descriptor together with the environment its
registration runs against: the parsed `model_metadata.json` fields, the
container-extracted fallbacks, and the image's docker-side behaviour. -/
structure BuiltinCase where
  metadataParses : Bool
  image : String
  title : String
  short_description : String
  authors : String
  examples : Option Json
  readme : Option String
  contExamples : Option Json
  contReadme : Option String
  localImageExists : Bool
  beh : ContainerBehavior
  sid : String

/-- Python `a or b` over optional JSON values (source line 339):
the first operand wins only when it is truthy. -/
def pyOrJson : Option Json → Option Json → Option Json
  | some j, b => if j.truthy then some j else b
  | none, b => b

/-- Python `a or b` over optional strings (source line 340). -/
def pyOrStr : Option String → Option String → Option String
  | some s, b => if s == "" then b else some s
  | none, b => b

def optJsonFalsy : Option Json → Bool
  | none => true
  | some j => !j.truthy

def optStrFalsy : Option String → Bool
  | none => true
  | some s => s == ""

def caseMergedExamples (c : BuiltinCase) : Option Json :=
  pyOrJson c.examples c.contExamples

def caseMergedReadme (c : BuiltinCase) : Option String :=
  pyOrStr c.readme c.contReadme

def caseMd (c : BuiltinCase) : Metadata :=
  { image := c.image, title := c.title, short_description := c.short_description,
    authors := c.authors, readme := (caseMergedReadme c).getD "",
    examples := (caseMergedExamples c).getD Json.null }

/-- The running state of the built-in registration loop:
the two counters, the registry, and the shared volume. -/
structure LoadState where
  registered : Nat
  failed : Nat
  reg : Registry
  fs : FS

/-- One iteration of the `load_builtin_models` loop (source lines 322-360):
a metadata parse failure, a falsy merged `examples` or `readme`, or a
raising `_register_model_internal` each count one failure and move on;
a successful registration counts one success. -/
def caseStep (dec : String → Option Json) (enc : Json → String)
    (c : BuiltinCase) (s : LoadState) : LoadState :=
  if !c.metadataParses then { s with failed := s.failed + 1 }
  else if optJsonFalsy (caseMergedExamples c) then { s with failed := s.failed + 1 }
  else if optStrFalsy (caseMergedReadme c) then { s with failed := s.failed + 1 }
  else
    let out := registerModelInternal dec enc c.localImageExists c.beh c.sid (caseMd c) s.reg s.fs
    match out.1 with
    | Except.ok _ =>
        { registered := s.registered + 1, failed := s.failed, reg := out.2.1, fs := out.2.2 }
    | Except.error _ =>
        { registered := s.registered, failed := s.failed + 1, reg := out.2.1, fs := out.2.2 }

def loadGo (dec : String → Option Json) (enc : Json → String) :
    List BuiltinCase → LoadState → LoadState
  | [], s => s
  | c :: cs, s => loadGo dec enc cs (caseStep dec enc c s)

/-- `load_builtin_models` (source lines 304-365): process every descriptor,
then raise an aggregate error exactly when some model failed. -/
def loadBuiltinModels (dec : String → Option Json) (enc : Json → String)
    (cases : List BuiltinCase) (reg : Registry) (fs : FS) :
    Except String Unit × LoadState :=
  let s := loadGo dec enc cases { registered := 0, failed := 0, reg := reg, fs := fs }
  (if s.failed > 0 then
     Except.error ("Failed to register " ++ toString s.failed ++ " built-in models")
   else Except.ok (), s)

/-- `startup_event` (source lines 367-382): wait for the store, then run the
bootstrap inside a try/except that logs and swallows its aggregate error, so
the process serves traffic with whatever models did register. -/
def startupEvent (dec : String → Option Json) (enc : Json → String)
    (mongoReady : Bool) (cases : List BuiltinCase) (reg : Registry) (fs : FS) :
    Except String LoadState :=
  if mongoReady then Except.ok (loadBuiltinModels dec enc cases reg fs).2
  else Except.error "Failed to connect to MongoDB"

/-- Whether a built-in descriptor would register successfully when the loop
reaches it in state `s`. -/
def caseSucceeds (dec : String → Option Json) (enc : Json → String)
    (c : BuiltinCase) (s : LoadState) : Bool :=
  c.metadataParses && !optJsonFalsy (caseMergedExamples c) &&
    !optStrFalsy (caseMergedReadme c) &&
    exceptIsOk (registerModelInternal dec enc c.localImageExists c.beh c.sid (caseMd c) s.reg s.fs).1

/-- Whether the registry holds some record for an image tag. -/
def hasImage (reg : Registry) (img : String) : Bool :=
  reg.any (fun m => m.image == img)

/-! ## Concrete instances used in witnesses and counterexamples -/

/-- A tiny concrete serializer standing in for `json.dump`. -/
def encW : Json → String
  | Json.num n => if n = 1 then "1" else "x"
  | _ => "x"

/-- A tiny concrete parser standing in for `json.loads`, the partial
inverse of `encW` on the values the examples use. -/
def decW (s : String) : Option Json :=
  if s = "1" then some (Json.num 1) else none

def fsEmpty : FS := FS.mk []

/-- A container implementing the two-argument protocol: it writes the
output file and exits cleanly. -/
def behNew : ContainerBehavior :=
  { twoArg := { writesOutput := some "1", combined := "", raises := false },
    oneArg := { writesOutput := none, combined := "", raises := false } }

/-- A legacy-only container: no output file, valid JSON on combined output. -/
def behLegacy : ContainerBehavior :=
  { twoArg := { writesOutput := none, combined := "", raises := false },
    oneArg := { writesOutput := none, combined := "1", raises := false } }

/-- A legacy-only container whose combined output is not JSON. -/
def behLegacyBad : ContainerBehavior :=
  { twoArg := { writesOutput := none, combined := "", raises := false },
    oneArg := { writesOutput := none, combined := "oops", raises := false } }

/-- A container that writes the output file under the two-argument protocol
and then exits nonzero, so the docker call raises; its legacy rerun prints
text that is not JSON. -/
def behCrashWithFile : ContainerBehavior :=
  { twoArg := { writesOutput := some "1", combined := "", raises := true },
    oneArg := { writesOutput := none, combined := "oops", raises := false } }

/-- A container whose two-argument invocation raises without writing. -/
def behRaise : ContainerBehavior :=
  { twoArg := { writesOutput := none, combined := "", raises := true },
    oneArg := { writesOutput := none, combined := "1", raises := false } }

def extNone : ExtractedMeta := { readme := none, examples := none }

/-- Environment: image present locally, well-behaved two-arg container. -/
def envLocalNew : RegEnv :=
  { pullSucceeds := false, localImageExists := true, extracted := extNone,
    beh := behNew, sid := "s" }

/-- Environment: the image can neither be pulled nor found locally. -/
def envUnavailable : RegEnv :=
  { pullSucceeds := false, localImageExists := false, extracted := extNone,
    beh := behNew, sid := "s" }

/-- A registration request whose caller-supplied readme is the empty string. -/
def reqEmptyReadme : RegisterRequest :=
  { image := "m:1", title := "t", short_description := "d", authors := "a",
    examples := some (Json.arr [Json.num 1]), readme := some "" }

def reqFull : RegisterRequest :=
  { image := "m:1", title := "t1", short_description := "d1", authors := "a1",
    examples := some (Json.num 1), readme := some "r1" }

def reqSecond : RegisterRequest :=
  { image := "m:1", title := "t2", short_description := "d2", authors := "a2",
    examples := some (Json.num 1), readme := some "r2" }

/-- A registration request supplying neither examples nor readme. -/
def reqNoMeta : RegisterRequest :=
  { image := "m:1", title := "t", short_description := "d", authors := "a",
    examples := none, readme := none }

/-- The document the successful built-in descriptor below persists. -/
def docOk : RegisteredModel :=
  { image := "ok:1", title := "t", short_description := "d", authors := "a",
    readme := "readme", examples := Json.arr [Json.num 1] }

/-- A built-in descriptor whose metadata file does not parse. -/
def caseFail : BuiltinCase :=
  { metadataParses := false, image := "bad:1", title := "t", short_description := "d",
    authors := "a", examples := none, readme := none, contExamples := none,
    contReadme := none, localImageExists := false, beh := behNew, sid := "s1" }

/-- A built-in descriptor that registers successfully. -/
def caseOk : BuiltinCase :=
  { metadataParses := true, image := "ok:1", title := "t", short_description := "d",
    authors := "a", examples := some (Json.arr [Json.num 1]), readme := some "readme",
    contExamples := none, contReadme := none, localImageExists := true,
    beh := behNew, sid := "s2" }

/-! ## File-system lemmas -/

theorem any_filter_ne (l : List (String × String)) (p : String) :
    (l.filter (fun kv => kv.1 != p)).any (fun kv => kv.1 == p) = false := by
  induction l with
  | nil => rfl
  | cons a t ih =>
      cases h : a.1 == p
      · simp [List.filter_cons, bne, h, List.any_cons, ih]
      · simp [List.filter_cons, bne, h, ih]

theorem any_filter_false (l : List (String × String)) (f g : String × String → Bool)
    (h : l.any g = false) : (l.filter f).any g = false := by
  induction l with
  | nil => rfl
  | cons a t ih =>
      simp only [List.any_cons, Bool.or_eq_false_iff] at h
      cases hf : f a
      · simp [List.filter_cons, hf, ih h.2]
      · simp [List.filter_cons, hf, List.any_cons, h.1, ih h.2]

theorem remove_existsFile_self (fs : FS) (p : String) :
    (fs.remove p).existsFile p = false :=
  any_filter_ne fs.files p

theorem remove_existsFile_false (fs : FS) (p q : String)
    (h : fs.existsFile p = false) : (fs.remove q).existsFile p = false :=
  any_filter_false fs.files _ _ h

theorem removeIfExists_self (fs : FS) (p : String) :
    (removeIfExists fs p).existsFile p = false := by
  unfold removeIfExists
  cases h : fs.existsFile p
  · simp [h]
  · simp [h, remove_existsFile_self]

theorem removeIfExists_false (fs : FS) (p q : String)
    (h : fs.existsFile p = false) : (removeIfExists fs q).existsFile p = false := by
  unfold removeIfExists
  cases hq : fs.existsFile q
  · simp [h]
  · simp [remove_existsFile_false fs p q h]

theorem cleanup_input (sid : String) (fs : FS) :
    (cleanupSession sid fs).existsFile (inputPath sid) = false :=
  removeIfExists_false _ _ _ (removeIfExists_self fs (inputPath sid))

theorem cleanup_output (sid : String) (fs : FS) :
    (cleanupSession sid fs).existsFile (outputPath sid) = false :=
  removeIfExists_self _ _

theorem write_existsFile_self (fs : FS) (p c : String) :
    (fs.write p c).existsFile p = true := by
  simp [FS.write, FS.existsFile, List.any_cons]

theorem write_read_self (fs : FS) (p c : String) :
    (fs.write p c).read p = some c := by
  simp [FS.write, FS.read, List.find?]

theorem read_some_existsFile (fs : FS) (p s : String)
    (h : fs.read p = some s) : fs.existsFile p = true := by
  unfold FS.read at h
  unfold FS.existsFile
  cases hf : fs.files.find? (fun kv => kv.1 == p) with
  | none => rw [hf] at h; exact absurd h (by simp)
  | some kv =>
      have := List.find?_some hf
      exact List.any_eq_true.mpr ⟨kv, List.mem_of_find?_eq_some hf, this⟩

/-! ## Claim C1 -/

/-- Claim C1: for every invocation of `_run_model_container`, whatever the
container does and whether the call returns or raises (container throw,
missing output file after both protocol attempts, malformed output file),
the session's input file and output file are gone from the shared volume
when the call finishes. -/
theorem c1_run_cleanup (dec : String → Option Json) (enc : Json → String)
    (image : String) (beh : ContainerBehavior) (inputData : Json) (sid : String)
    (fs0 : FS) :
    (runModelContainer dec enc image beh inputData sid fs0).2.1.existsFile (inputPath sid) = false
  ∧ (runModelContainer dec enc image beh inputData sid fs0).2.1.existsFile (outputPath sid) = false := by
  unfold runModelContainer
  exact ⟨cleanup_input _ _, cleanup_output _ _⟩

/-! ## Claim C8 -/

theorem classifyLoop_eq_filter (ls : List String) :
    classifyLoop ls
      = ((ls.map strTrim).filter (fun l => !(l == "") && !isStderrLine l),
         (ls.map strTrim).filter (fun l => !(l == "") && isStderrLine l)) := by
  induction ls with
  | nil => rfl
  | cons a t ih =>
      simp only [classifyLoop, List.map_cons, List.filter_cons, ih]
      cases he : strTrim a == ""
      · cases hs : isStderrLine (strTrim a)
        · simp [he, hs]
        · simp [he, hs]
      · simp [he]

/-- Claim C8: the classification step partitions the non-blank (stripped)
lines of the raw combined output: every line containing one of the fixed
diagnostic markers goes to the stderr text, every other non-blank line goes
to the stdout text, blank lines go to neither, and the returned texts are
those line lists joined by newlines (and stripped). -/
theorem c8_classify_partition (raw : String) :
    (classifyLoop (splitLines raw)).1
      = ((splitLines raw).map strTrim).filter (fun l => !(l == "") && !isStderrLine l)
  ∧ (classifyLoop (splitLines raw)).2
      = ((splitLines raw).map strTrim).filter (fun l => !(l == "") && isStderrLine l)
  ∧ classifyOutput raw
      = (strTrim (String.intercalate "\n"
           (((splitLines raw).map strTrim).filter (fun l => !(l == "") && !isStderrLine l))),
         strTrim (String.intercalate "\n"
           (((splitLines raw).map strTrim).filter (fun l => !(l == "") && isStderrLine l)))) := by
  have h := classifyLoop_eq_filter (splitLines raw)
  refine ⟨by rw [h], by rw [h], ?_⟩
  unfold classifyOutput
  rw [h]

/-! ## Claim C10 -/

theorem finishRun_events (dec : String → Option Json) (sid raw : String)
    (fs : FS) (evs : List Event) : (finishRun dec sid raw fs evs).2.2 = evs := by
  unfold finishRun
  split
  · rfl
  · split
    · rfl
    · split <;> rfl

/-- Claim C10: the legacy fallback is triggered by any exception from the
current-protocol attempt — the docker call for the two-argument run raising,
or the output file being absent after a clean exit — so an exception from
the current-protocol attempt alone never makes `run` fail without the
legacy single-argument attempt having been made. -/
theorem c10_fallback_on_any_exception (dec : String → Option Json)
    (enc : Json → String) (image : String) (beh : ContainerBehavior)
    (inputData : Json) (sid : String) (fs0 : FS)
    (h : beh.twoArg.raises = true
       ∨ (fsAfterTwoArg enc beh inputData sid fs0).existsFile (outputPath sid) = false) :
    (runModelContainer dec enc image beh inputData sid fs0).2.2
      = [Event.containerRun image (twoArgCmd sid), Event.containerRun image (oneArgCmd sid)] := by
  have hcond : (!beh.twoArg.raises
      && (fsAfterTwoArg enc beh inputData sid fs0).existsFile (outputPath sid)) = false := by
    rcases h with h | h <;> simp [h]
  unfold runModelContainer runModelContainerBody
  simp only [hcond, Bool.false_eq_true, if_false]
  cases hr : beh.oneArg.raises
  · simp only [hr, Bool.false_eq_true, if_false]
    cases hd : dec (strTrim beh.oneArg.combined)
    · simp [hd]
    · simp [hd, finishRun_events]
  · simp [hr]

/-! ## Claim C2 -/

theorem finishRun_ok (dec : String → Option Json) (sid raw : String) (fs : FS)
    (evs : List Event) (s : String) (p : Json)
    (hread : fs.read (outputPath sid) = some s) (hdec : dec s = some p) :
    finishRun dec sid raw fs evs
      = (Except.ok { predictions := p, stdout := (classifyOutput raw).1,
                     stderr := (classifyOutput raw).2,
                     model_logs := { input_file := inputFileName sid,
                                     output_file := outputFileName sid,
                                     session_id := sid } }, fs, evs) := by
  unfold finishRun
  rw [read_some_existsFile fs (outputPath sid) s hread]
  simp [hread, hdec]

/-- Counterexample to C2 as stated: a container that writes the output file
under the two-argument protocol and then exits nonzero (so the docker call
raises).  After the two-argument attempt the output file exists and its
contents decode as JSON, yet `run` does not return them: the legacy attempt
is made anyway, and here it makes the whole call fail. -/
theorem c2_counterexample :
    (fsAfterTwoArg encW behCrashWithFile (Json.num 1) "s" fsEmpty).read (outputPath "s")
        = some "1"
  ∧ decW "1" = some (Json.num 1)
  ∧ exceptIsOk (runModelContainer decW encW "img" behCrashWithFile (Json.num 1) "s" fsEmpty).1
        = false
  ∧ (runModelContainer decW encW "img" behCrashWithFile (Json.num 1) "s" fsEmpty).2.2
      = [Event.containerRun "img" (twoArgCmd "s"), Event.containerRun "img" (oneArgCmd "s")] :=
  ⟨rfl, rfl, rfl, rfl⟩

/-- Claim C2 as amended: the fallback condition is that the two-argument
attempt raised or left no output file (not merely the latter).  When the
two-argument attempt returns without raising and the output file exists,
its decoded contents are the predictions and the legacy attempt is never
made; when the attempt raised or the file is absent, the container is
re-run with only the input path, a JSON-decodable combined output is
written to the output file and returned as the predictions, and a
non-JSON combined output fails the call with an execution-failed error. -/
theorem c2_amended (dec : String → Option Json) (enc : Json → String)
    (image : String) (beh : ContainerBehavior) (inputData : Json) (sid : String)
    (fs0 : FS) :
    (∀ s p, beh.twoArg.raises = false →
        (fsAfterTwoArg enc beh inputData sid fs0).read (outputPath sid) = some s →
        dec s = some p →
        (∃ r, (runModelContainer dec enc image beh inputData sid fs0).1 = Except.ok r
            ∧ r.predictions = p)
          ∧ (runModelContainer dec enc image beh inputData sid fs0).2.2
              = [Event.containerRun image (twoArgCmd sid)])
  ∧ (∀ p, (beh.twoArg.raises = true
          ∨ (fsAfterTwoArg enc beh inputData sid fs0).existsFile (outputPath sid) = false) →
        beh.oneArg.raises = false →
        dec (strTrim beh.oneArg.combined) = some p →
        dec (enc p) = some p →
        (∃ r, (runModelContainer dec enc image beh inputData sid fs0).1 = Except.ok r
            ∧ r.predictions = p)
          ∧ (runModelContainerBody dec enc image beh inputData sid fs0).2.1.read (outputPath sid)
              = some (enc p)
          ∧ (runModelContainer dec enc image beh inputData sid fs0).2.2
              = [Event.containerRun image (twoArgCmd sid), Event.containerRun image (oneArgCmd sid)])
  ∧ ((beh.twoArg.raises = true
          ∨ (fsAfterTwoArg enc beh inputData sid fs0).existsFile (outputPath sid) = false) →
        beh.oneArg.raises = false →
        dec (strTrim beh.oneArg.combined) = none →
        (runModelContainer dec enc image beh inputData sid fs0).1
          = Except.error (RunError.executionFailed
              "Model execution failed: Legacy pattern failed - stdout is not valid JSON")) := by
  refine ⟨?_, ?_, ?_⟩
  · intro s p h0 hread hdec
    have hex := read_some_existsFile _ _ _ hread
    have hbody : runModelContainerBody dec enc image beh inputData sid fs0
        = finishRun dec sid beh.twoArg.combined (fsAfterTwoArg enc beh inputData sid fs0)
            [Event.containerRun image (twoArgCmd sid)] := by
      unfold runModelContainerBody
      simp [h0, hex]
    have hfin := finishRun_ok dec sid beh.twoArg.combined
      (fsAfterTwoArg enc beh inputData sid fs0)
      [Event.containerRun image (twoArgCmd sid)] s p hread hdec
    have hrun : (runModelContainer dec enc image beh inputData sid fs0).1
        = Except.ok { predictions := p, stdout := (classifyOutput beh.twoArg.combined).1,
                      stderr := (classifyOutput beh.twoArg.combined).2,
                      model_logs := { input_file := inputFileName sid,
                                      output_file := outputFileName sid,
                                      session_id := sid } } := by
      simp only [runModelContainer, hbody, hfin]
    constructor
    · exact ⟨_, hrun, rfl⟩
    · simp only [runModelContainer, hbody, hfin]
  · intro p h hr1 hdec htrip
    have hcond : (!beh.twoArg.raises
        && (fsAfterTwoArg enc beh inputData sid fs0).existsFile (outputPath sid)) = false := by
      rcases h with h | h <;> simp [h]
    have hbody : runModelContainerBody dec enc image beh inputData sid fs0
        = finishRun dec sid beh.oneArg.combined
            ((applyAct (fsAfterTwoArg enc beh inputData sid fs0) (outputPath sid) beh.oneArg).write
              (outputPath sid) (enc p))
            [Event.containerRun image (twoArgCmd sid), Event.containerRun image (oneArgCmd sid)] := by
      unfold runModelContainerBody
      simp [hcond, hr1, hdec]
    have hread := write_read_self
      (applyAct (fsAfterTwoArg enc beh inputData sid fs0) (outputPath sid) beh.oneArg)
      (outputPath sid) (enc p)
    have hfin := finishRun_ok dec sid beh.oneArg.combined
      ((applyAct (fsAfterTwoArg enc beh inputData sid fs0) (outputPath sid) beh.oneArg).write
        (outputPath sid) (enc p))
      [Event.containerRun image (twoArgCmd sid), Event.containerRun image (oneArgCmd sid)]
      (enc p) p hread htrip
    have hrun : (runModelContainer dec enc image beh inputData sid fs0).1
        = Except.ok { predictions := p, stdout := (classifyOutput beh.oneArg.combined).1,
                      stderr := (classifyOutput beh.oneArg.combined).2,
                      model_logs := { input_file := inputFileName sid,
                                      output_file := outputFileName sid,
                                      session_id := sid } } := by
      simp only [runModelContainer, hbody, hfin]
    refine ⟨⟨_, hrun, rfl⟩, ?_, ?_⟩
    · simp only [hbody, hfin]
      exact hread
    · simp only [runModelContainer, hbody, hfin]
  · intro h hr1 hdec
    have hcond : (!beh.twoArg.raises
        && (fsAfterTwoArg enc beh inputData sid fs0).existsFile (outputPath sid)) = false := by
      rcases h with h | h <;> simp [h]
    have hbody : runModelContainerBody dec enc image beh inputData sid fs0
        = (Except.error (RunError.executionFailed
              "Model execution failed: Legacy pattern failed - stdout is not valid JSON"),
           applyAct (fsAfterTwoArg enc beh inputData sid fs0) (outputPath sid) beh.oneArg,
           [Event.containerRun image (twoArgCmd sid), Event.containerRun image (oneArgCmd sid)]) := by
      unfold runModelContainerBody
      simp [hcond, hr1, hdec]
    simp only [runModelContainer, hbody]

/-- Witness for C2 as amended: the two-argument protocol at a concrete
well-behaved container, the legacy path at a legacy-only container, and
the legacy failure at a container printing non-JSON. -/
theorem c2_witness :
    ((∃ r, (runModelContainer decW encW "img" behNew (Json.num 1) "s" fsEmpty).1 = Except.ok r
        ∧ r.predictions = Json.num 1)
      ∧ (runModelContainer decW encW "img" behNew (Json.num 1) "s" fsEmpty).2.2
          = [Event.containerRun "img" (twoArgCmd "s")])
  ∧ ((∃ r, (runModelContainer decW encW "img" behLegacy (Json.num 1) "s" fsEmpty).1 = Except.ok r
        ∧ r.predictions = Json.num 1)
      ∧ (runModelContainerBody decW encW "img" behLegacy (Json.num 1) "s" fsEmpty).2.1.read
          (outputPath "s") = some (encW (Json.num 1))
      ∧ (runModelContainer decW encW "img" behLegacy (Json.num 1) "s" fsEmpty).2.2
          = [Event.containerRun "img" (twoArgCmd "s"), Event.containerRun "img" (oneArgCmd "s")])
  ∧ (runModelContainer decW encW "img" behLegacyBad (Json.num 1) "s" fsEmpty).1
      = Except.error (RunError.executionFailed
          "Model execution failed: Legacy pattern failed - stdout is not valid JSON") :=
  ⟨(c2_amended decW encW "img" behNew (Json.num 1) "s" fsEmpty).1 "1" (Json.num 1) rfl rfl rfl,
   (c2_amended decW encW "img" behLegacy (Json.num 1) "s" fsEmpty).2.1 (Json.num 1)
     (Or.inr rfl) rfl rfl rfl,
   (c2_amended decW encW "img" behLegacyBad (Json.num 1) "s" fsEmpty).2.2
     (Or.inr rfl) rfl rfl⟩

/-- Witness for C10 at a container whose two-argument docker call raises. -/
theorem c10_witness :
    behRaise.twoArg.raises = true
  ∧ (runModelContainer decW encW "img" behRaise Json.null "s" fsEmpty).2.2
      = [Event.containerRun "img" (twoArgCmd "s"), Event.containerRun "img" (oneArgCmd "s")] :=
  ⟨rfl, c10_fallback_on_any_exception decW encW "img" behRaise Json.null "s" fsEmpty (Or.inl rfl)⟩

/-! ## Claim C6 -/

/-- Claim C6: a predict request whose image has no registry record fails
with HTTP 404 "Model not registered" and runs no container; a container run
happens only when the registry lookup succeeds. -/
theorem c6_predict_requires_registration (dec : String → Option Json)
    (enc : Json → String) (beh : ContainerBehavior) (sid image : String)
    (input : Json) (reg : Registry) (fs : FS) :
    (reg.find? (fun m => m.image == image) = none →
        (predict dec enc beh sid image input reg fs).1
          = Except.error (HttpError.mk 404 "Model not registered")
      ∧ (predict dec enc beh sid image input reg fs).2.2 = [])
  ∧ ((predict dec enc beh sid image input reg fs).2.2 ≠ [] →
      ∃ m, reg.find? (fun m2 => m2.image == image) = some m) := by
  constructor
  · intro h
    unfold predict
    rw [h]
    exact ⟨rfl, rfl⟩
  · intro h
    cases hf : reg.find? (fun m2 => m2.image == image) with
    | none =>
        exact absurd (by unfold predict; rw [hf]) h
    | some m => exact ⟨m, rfl⟩

/-- Witness for C6: predicting against an empty registry. -/
theorem c6_witness :
    ([] : Registry).find? (fun m => m.image == "m:1") = none
  ∧ (predict decW encW behNew "s" "m:1" Json.null [] fsEmpty).1
      = Except.error (HttpError.mk 404 "Model not registered")
  ∧ (predict decW encW behNew "s" "m:1" Json.null [] fsEmpty).2.2 = [] :=
  ⟨rfl,
   ((c6_predict_requires_registration decW encW behNew "s" "m:1" Json.null [] fsEmpty).1 rfl).1,
   ((c6_predict_requires_registration decW encW behNew "s" "m:1" Json.null [] fsEmpty).1 rfl).2⟩

/-! ## Registration lemmas shared by C3, C4, C5 -/

theorem rmi_isOk (dec : String → Option Json) (enc : Json → String)
    (loc : Bool) (beh : ContainerBehavior) (sid : String) (md : Metadata)
    (reg : Registry) (fs : FS) :
    exceptIsOk (registerModelInternal dec enc loc beh sid md reg fs).1
      = (loc && exceptIsOk (runModelContainer dec enc md.image beh md.examples sid fs).1) := by
  unfold registerModelInternal
  cases loc
  · simp [exceptIsOk]
  · cases hr : (runModelContainer dec enc md.image beh md.examples sid fs).1 <;>
      simp [hr, exceptIsOk]

theorem rmi_error_registry (dec : String → Option Json) (enc : Json → String)
    (loc : Bool) (beh : ContainerBehavior) (sid : String) (md : Metadata)
    (reg : Registry) (fs : FS)
    (h : exceptIsOk (registerModelInternal dec enc loc beh sid md reg fs).1 = false) :
    (registerModelInternal dec enc loc beh sid md reg fs).2.1 = reg := by
  unfold registerModelInternal at h ⊢
  cases loc
  · rfl
  · cases hr : (runModelContainer dec enc md.image beh md.examples sid fs).1 with
    | ok r => simp [hr, exceptIsOk] at h
    | error e => simp [hr]

theorem rmi_ok_registry (dec : String → Option Json) (enc : Json → String)
    (loc : Bool) (beh : ContainerBehavior) (sid : String) (md : Metadata)
    (reg : Registry) (fs : FS)
    (h : exceptIsOk (registerModelInternal dec enc loc beh sid md reg fs).1 = true) :
    (registerModelInternal dec enc loc beh sid md reg fs).2.1
      = replaceOne reg md.image (mkDoc md) := by
  unfold registerModelInternal at h ⊢
  cases loc
  · simp [exceptIsOk] at h
  · cases hr : (runModelContainer dec enc md.image beh md.examples sid fs).1 with
    | ok r => simp [hr]
    | error e => simp [hr, exceptIsOk] at h

theorem registerModel_eq_internal (dec : String → Option Json) (enc : Json → String)
    (env : RegEnv) (req : RegisterRequest) (reg : Registry) (fs : FS) (e : Json) (r : String)
    (hme : mergedExamples req env.extracted = some e)
    (hmr : mergedReadme req env.extracted = some r) :
    exceptIsOk (registerModel dec enc env req reg fs).1
        = exceptIsOk (registerModelInternal dec enc (env.localImageExists || env.pullSucceeds)
            env.beh env.sid (mdOf req e r) reg fs).1
  ∧ (registerModel dec enc env req reg fs).2.1
        = (registerModelInternal dec enc (env.localImageExists || env.pullSucceeds)
            env.beh env.sid (mdOf req e r) reg fs).2.1 := by
  unfold registerModel
  rw [hme, hmr]
  cases hint : (registerModelInternal dec enc (env.localImageExists || env.pullSucceeds)
      env.beh env.sid (mdOf req e r) reg fs).1 <;>
    simp [hint, exceptIsOk]

theorem registerModel_none_examples (dec : String → Option Json) (enc : Json → String)
    (env : RegEnv) (req : RegisterRequest) (reg : Registry) (fs : FS)
    (hme : mergedExamples req env.extracted = none) :
    exceptIsOk (registerModel dec enc env req reg fs).1 = false
  ∧ (registerModel dec enc env req reg fs).2.1 = reg := by
  unfold registerModel
  rw [hme]
  exact ⟨rfl, rfl⟩

theorem registerModel_none_readme (dec : String → Option Json) (enc : Json → String)
    (env : RegEnv) (req : RegisterRequest) (reg : Registry) (fs : FS) (e : Json)
    (hme : mergedExamples req env.extracted = some e)
    (hmr : mergedReadme req env.extracted = none) :
    exceptIsOk (registerModel dec enc env req reg fs).1 = false
  ∧ (registerModel dec enc env req reg fs).2.1 = reg := by
  unfold registerModel
  rw [hme, hmr]
  exact ⟨rfl, rfl⟩

/-! ## Claim C3 -/

/-- Claim C3: the registry upsert happens only after a successful dry run.
If the image can neither be pulled nor found locally, or the dry run fails,
registration surfaces an error and the registry is left unchanged; and
whenever the registry did change, the dry run on the merged examples
succeeded. -/
theorem c3_upsert_only_after_dry_run (dec : String → Option Json)
    (enc : Json → String) (env : RegEnv) (req : RegisterRequest)
    (reg : Registry) (fs : FS) :
    ((env.localImageExists || env.pullSucceeds) = false →
        exceptIsOk (registerModel dec enc env req reg fs).1 = false
      ∧ (registerModel dec enc env req reg fs).2.1 = reg)
  ∧ (∀ e r, mergedExamples req env.extracted = some e →
        mergedReadme req env.extracted = some r →
        exceptIsOk (runModelContainer dec enc req.image env.beh e env.sid fs).1 = false →
        exceptIsOk (registerModel dec enc env req reg fs).1 = false
      ∧ (registerModel dec enc env req reg fs).2.1 = reg)
  ∧ ((registerModel dec enc env req reg fs).2.1 ≠ reg →
      ∃ e r, mergedExamples req env.extracted = some e
        ∧ mergedReadme req env.extracted = some r
        ∧ exceptIsOk (runModelContainer dec enc req.image env.beh e env.sid fs).1 = true) := by
  refine ⟨?_, ?_, ?_⟩
  · intro h
    cases hme : mergedExamples req env.extracted with
    | none => exact registerModel_none_examples dec enc env req reg fs hme
    | some e =>
        cases hmr : mergedReadme req env.extracted with
        | none => exact registerModel_none_readme dec enc env req reg fs e hme hmr
        | some r =>
            obtain ⟨h1, h2⟩ := registerModel_eq_internal dec enc env req reg fs e r hme hmr
            have hok : exceptIsOk (registerModelInternal dec enc
                (env.localImageExists || env.pullSucceeds)
                env.beh env.sid (mdOf req e r) reg fs).1 = false := by
              rw [rmi_isOk, h]
              rfl
            exact ⟨h1.trans hok, h2.trans (rmi_error_registry _ _ _ _ _ _ _ _ hok)⟩
  · intro e r hme hmr hrun
    obtain ⟨h1, h2⟩ := registerModel_eq_internal dec enc env req reg fs e r hme hmr
    have hok : exceptIsOk (registerModelInternal dec enc
        (env.localImageExists || env.pullSucceeds)
        env.beh env.sid (mdOf req e r) reg fs).1 = false := by
      rw [rmi_isOk]
      have : (mdOf req e r).image = req.image := rfl
      rw [this, show (mdOf req e r).examples = e from rfl, hrun, Bool.and_false]
    exact ⟨h1.trans hok, h2.trans (rmi_error_registry _ _ _ _ _ _ _ _ hok)⟩
  · intro hchg
    cases hme : mergedExamples req env.extracted with
    | none => exact absurd (registerModel_none_examples dec enc env req reg fs hme).2 hchg
    | some e =>
        cases hmr : mergedReadme req env.extracted with
        | none => exact absurd (registerModel_none_readme dec enc env req reg fs e hme hmr).2 hchg
        | some r =>
            obtain ⟨h1, h2⟩ := registerModel_eq_internal dec enc env req reg fs e r hme hmr
            refine ⟨e, r, rfl, rfl, ?_⟩
            cases hok : exceptIsOk (registerModelInternal dec enc
                (env.localImageExists || env.pullSucceeds)
                env.beh env.sid (mdOf req e r) reg fs).1 with
            | false => exact absurd (h2.trans (rmi_error_registry _ _ _ _ _ _ _ _ hok)) hchg
            | true =>
                have hand : ((env.localImageExists || env.pullSucceeds)
                    && exceptIsOk (runModelContainer dec enc (mdOf req e r).image env.beh
                        (mdOf req e r).examples env.sid fs).1) = true :=
                  (rmi_isOk dec enc (env.localImageExists || env.pullSucceeds)
                    env.beh env.sid (mdOf req e r) reg fs).symm.trans hok
                simp only [Bool.and_eq_true] at hand
                exact hand.2

/-- Witness for C3: registering an unavailable image concretely fails and
leaves the registry unchanged. -/
theorem c3_witness :
    (envUnavailable.localImageExists || envUnavailable.pullSucceeds) = false
  ∧ exceptIsOk (registerModel decW encW envUnavailable reqFull [] fsEmpty).1 = false
  ∧ (registerModel decW encW envUnavailable reqFull [] fsEmpty).2.1 = [] :=
  ⟨rfl,
   ((c3_upsert_only_after_dry_run decW encW envUnavailable reqFull [] fsEmpty).1 rfl).1,
   ((c3_upsert_only_after_dry_run decW encW envUnavailable reqFull [] fsEmpty).1 rfl).2⟩

/-! ## Claim C4 -/

theorem mem_replaceOne (reg : Registry) (img : String) (doc m : RegisteredModel)
    (h : m ∈ replaceOne reg img doc) : m ∈ reg ∨ m = doc := by
  induction reg with
  | nil =>
      simp only [replaceOne, List.mem_singleton] at h
      exact Or.inr h
  | cons a t ih =>
      unfold replaceOne at h
      cases ha : (a.image == img)
      · rw [ha] at h
        simp only [Bool.false_eq_true, if_false, List.mem_cons] at h
        rcases h with h | h
        · exact Or.inl (List.mem_cons.mpr (Or.inl h))
        · rcases ih h with h2 | h2
          · exact Or.inl (List.mem_cons.mpr (Or.inr h2))
          · exact Or.inr h2
      · rw [ha] at h
        simp only [if_true, List.mem_cons] at h
        rcases h with h | h
        · exact Or.inr h
        · exact Or.inl (List.mem_cons.mpr (Or.inr h))

theorem getD_truthy (o : Option Json) (h : optJsonFalsy o = false) :
    (o.getD Json.null).truthy = true := by
  cases o with
  | none => simp [optJsonFalsy] at h
  | some j => simpa [optJsonFalsy] using h

theorem getD_ne_empty (o : Option String) (h : optStrFalsy o = false) :
    (o.getD "") ≠ "" := by
  cases o with
  | none => simp [optStrFalsy] at h
  | some s => simpa [optStrFalsy] using h

theorem caseStep_reg_cases (dec : String → Option Json) (enc : Json → String)
    (c : BuiltinCase) (s : LoadState) :
    (caseStep dec enc c s).reg = s.reg
  ∨ ((caseStep dec enc c s).reg = replaceOne s.reg c.image (mkDoc (caseMd c))
      ∧ optJsonFalsy (caseMergedExamples c) = false
      ∧ optStrFalsy (caseMergedReadme c) = false) := by
  unfold caseStep
  cases hp : c.metadataParses
  · simp [hp]
  · cases hex : optJsonFalsy (caseMergedExamples c)
    · cases hrd : optStrFalsy (caseMergedReadme c)
      · cases hint : (registerModelInternal dec enc c.localImageExists c.beh c.sid
            (caseMd c) s.reg s.fs).1 with
        | ok r =>
            refine Or.inr ⟨?_, rfl, rfl⟩
            have hok : exceptIsOk (registerModelInternal dec enc c.localImageExists c.beh
                c.sid (caseMd c) s.reg s.fs).1 = true := by rw [hint]; rfl
            have := rmi_ok_registry dec enc c.localImageExists c.beh c.sid (caseMd c)
              s.reg s.fs hok
            simp [hp, hex, hrd, hint, this.symm.trans rfl]
            exact this
        | error e =>
            refine Or.inl ?_
            have herr : exceptIsOk (registerModelInternal dec enc c.localImageExists c.beh
                c.sid (caseMd c) s.reg s.fs).1 = false := by rw [hint]; rfl
            have := rmi_error_registry dec enc c.localImageExists c.beh c.sid (caseMd c)
              s.reg s.fs herr
            simp [hp, hex, hrd, hint]
            exact this
      · simp [hp, hex, hrd]
    · simp [hp, hex]

theorem loadGo_mem (dec : String → Option Json) (enc : Json → String)
    (cases : List BuiltinCase) (s : LoadState) (m : RegisteredModel)
    (h : m ∈ (loadGo dec enc cases s).reg) :
    m ∈ s.reg ∨ (m.examples.truthy = true ∧ m.readme ≠ "") := by
  induction cases generalizing s with
  | nil => exact Or.inl h
  | cons c cs ih =>
      simp only [loadGo] at h
      rcases ih (caseStep dec enc c s) h with hm | hm
      · rcases caseStep_reg_cases dec enc c s with hc | ⟨hc, hex, hrd⟩
        · rw [hc] at hm
          exact Or.inl hm
        · rw [hc] at hm
          rcases mem_replaceOne _ _ _ _ hm with hm2 | hm2
          · exact Or.inl hm2
          · subst hm2
            exact Or.inr ⟨getD_truthy _ hex, getD_ne_empty _ hrd⟩
      · exact Or.inr hm

/-- Counterexample to C4 as stated: `POST /models` validates only that the
fields are present (`is None`), not that they are non-empty, so a caller
supplying `readme: ""` gets a successful registration that persists a
document whose readme is empty at the moment of persistence. -/
theorem c4_counterexample :
    (registerModel decW encW envLocalNew reqEmptyReadme [] fsEmpty).2.1
      = [{ image := "m:1", title := "t", short_description := "d", authors := "a",
           readme := "", examples := Json.arr [Json.num 1] }]
  ∧ exceptIsOk (registerModel decW encW envLocalNew reqEmptyReadme [] fsEmpty).1 = true :=
  ⟨rfl, rfl⟩

/-- Claim C4 as amended: a registration whose merged examples (or readme)
are still missing (`None`) fails with a validation error and persists
nothing, and every document the API path persists carries the merged
(present, but possibly empty) caller or container values; only the startup
bootstrap path additionally guarantees that persisted examples and readme
are non-empty (truthy), because it alone validates by truthiness. -/
theorem c4_amended (dec : String → Option Json) (enc : Json → String)
    (env : RegEnv) (req : RegisterRequest) (reg : Registry) (fs : FS)
    (casesB : List BuiltinCase) (regB : Registry) (fsB : FS) :
    (mergedExamples req env.extracted = none →
        exceptIsOk (registerModel dec enc env req reg fs).1 = false
      ∧ (registerModel dec enc env req reg fs).2.1 = reg)
  ∧ (∀ e, mergedExamples req env.extracted = some e →
        mergedReadme req env.extracted = none →
        exceptIsOk (registerModel dec enc env req reg fs).1 = false
      ∧ (registerModel dec enc env req reg fs).2.1 = reg)
  ∧ (∀ m, m ∈ (registerModel dec enc env req reg fs).2.1 →
        m ∈ reg ∨ ∃ e r, mergedExamples req env.extracted = some e
          ∧ mergedReadme req env.extracted = some r ∧ m = mkDoc (mdOf req e r))
  ∧ (∀ m, m ∈ (loadGo dec enc casesB (LoadState.mk 0 0 regB fsB)).reg →
        m ∈ regB ∨ (m.examples.truthy = true ∧ m.readme ≠ "")) := by
  refine ⟨?_, ?_, ?_, ?_⟩
  · intro hme
    exact registerModel_none_examples dec enc env req reg fs hme
  · intro e hme hmr
    exact registerModel_none_readme dec enc env req reg fs e hme hmr
  · intro m hm
    cases hme : mergedExamples req env.extracted with
    | none =>
        rw [(registerModel_none_examples dec enc env req reg fs hme).2] at hm
        exact Or.inl hm
    | some e =>
        cases hmr : mergedReadme req env.extracted with
        | none =>
            rw [(registerModel_none_readme dec enc env req reg fs e hme hmr).2] at hm
            exact Or.inl hm
        | some r =>
            obtain ⟨h1, h2⟩ := registerModel_eq_internal dec enc env req reg fs e r hme hmr
            rw [h2] at hm
            cases hok : exceptIsOk (registerModelInternal dec enc
                (env.localImageExists || env.pullSucceeds)
                env.beh env.sid (mdOf req e r) reg fs).1 with
            | false =>
                rw [rmi_error_registry _ _ _ _ _ _ _ _ hok] at hm
                exact Or.inl hm
            | true =>
                rw [rmi_ok_registry _ _ _ _ _ _ _ _ hok] at hm
                rcases mem_replaceOne _ _ _ _ hm with hm2 | hm2
                · exact Or.inl hm2
                · exact Or.inr ⟨e, r, rfl, rfl, hm2⟩
  · intro m hm
    exact loadGo_mem dec enc casesB _ m hm

/-- Witness for C4 as amended: a request with neither field fails with the
validation error and persists nothing, and the document the startup path
persists for the concrete built-in descriptor has truthy examples and a
non-empty readme. -/
theorem c4_witness :
    (exceptIsOk (registerModel decW encW envLocalNew reqNoMeta [] fsEmpty).1 = false
      ∧ (registerModel decW encW envLocalNew reqNoMeta [] fsEmpty).2.1 = [])
  ∧ (docOk ∈ ([] : Registry) ∨ (docOk.examples.truthy = true ∧ docOk.readme ≠ "")) := by
  constructor
  · exact (c4_amended decW encW envLocalNew reqNoMeta [] fsEmpty [caseOk] [] fsEmpty).1 rfl
  · refine (c4_amended decW encW envLocalNew reqNoMeta [] fsEmpty [caseOk] [] fsEmpty).2.2.2
      docOk ?_
    exact List.Mem.head _

/-! ## Claim C5 -/

theorem filter_replaceOne (reg : Registry) (img : String) (doc : RegisteredModel)
    (hdoc : doc.image = img)
    (hcnt : (reg.filter (fun m => m.image == img)).length ≤ 1) :
    (replaceOne reg img doc).filter (fun m => m.image == img) = [doc] := by
  induction reg with
  | nil => simp [replaceOne, List.filter, hdoc]
  | cons a t ih =>
      unfold replaceOne
      cases ha : (a.image == img)
      · simp only [ha, Bool.false_eq_true, if_false]
        rw [List.filter_cons_of_neg (by simp [ha])]
        apply ih
        rw [List.filter_cons_of_neg (by simp [ha])] at hcnt
        exact hcnt
      · simp only [ha, if_true]
        have hd : (doc.image == img) = true := by rw [hdoc]; simp
        rw [List.filter_cons_of_pos (by simp [hd])]
        rw [List.filter_cons_of_pos (by simp [ha])] at hcnt
        have hz : (t.filter (fun m => m.image == img)).length = 0 := by
          simp only [List.length_cons] at hcnt
          omega
        rw [List.length_eq_zero.mp hz]

theorem registerModel_ok_shape (dec : String → Option Json) (enc : Json → String)
    (env : RegEnv) (req : RegisterRequest) (reg : Registry) (fs : FS)
    (h : exceptIsOk (registerModel dec enc env req reg fs).1 = true) :
    ∃ e r, mergedExamples req env.extracted = some e
      ∧ mergedReadme req env.extracted = some r
      ∧ (registerModel dec enc env req reg fs).2.1
          = replaceOne reg req.image (mkDoc (mdOf req e r)) := by
  cases hme : mergedExamples req env.extracted with
  | none =>
      rw [(registerModel_none_examples dec enc env req reg fs hme).1] at h
      exact absurd h (by simp)
  | some e =>
      cases hmr : mergedReadme req env.extracted with
      | none =>
          rw [(registerModel_none_readme dec enc env req reg fs e hme hmr).1] at h
          exact absurd h (by simp)
      | some r =>
          obtain ⟨h1, h2⟩ := registerModel_eq_internal dec enc env req reg fs e r hme hmr
          have hok := h1.symm.trans h
          exact ⟨e, r, rfl, rfl, h2.trans (rmi_ok_registry _ _ _ _ _ _ _ _ hok)⟩

/-- Claim C5: two successful registrations of the same image tag leave the
registry with exactly one record for that tag, and its fields are exactly
the second registration's merged values — a wholesale replace, not a merge. -/
theorem c5_second_registration_replaces (dec : String → Option Json)
    (enc : Json → String) (env1 env2 : RegEnv) (req1 req2 : RegisterRequest)
    (reg0 : Registry) (fs0 fs1 : FS)
    (himg : req2.image = req1.image)
    (hcnt : (reg0.filter (fun m => m.image == req1.image)).length ≤ 1)
    (h1 : exceptIsOk (registerModel dec enc env1 req1 reg0 fs0).1 = true)
    (h2 : exceptIsOk (registerModel dec enc env2 req2
        ((registerModel dec enc env1 req1 reg0 fs0).2.1) fs1).1 = true) :
    ∃ e r, mergedExamples req2 env2.extracted = some e
      ∧ mergedReadme req2 env2.extracted = some r
      ∧ ((registerModel dec enc env2 req2
            ((registerModel dec enc env1 req1 reg0 fs0).2.1) fs1).2.1).filter
            (fun m => m.image == req1.image)
          = [mkDoc (mdOf req2 e r)] := by
  obtain ⟨e1, r1, hme1, hmr1, hreg1⟩ := registerModel_ok_shape dec enc env1 req1 reg0 fs0 h1
  obtain ⟨e2, r2, hme2, hmr2, hreg2⟩ := registerModel_ok_shape dec enc env2 req2 _ fs1 h2
  refine ⟨e2, r2, hme2, hmr2, ?_⟩
  rw [himg] at hreg2
  rw [hreg2]
  apply filter_replaceOne
  · exact himg
  · rw [hreg1, filter_replaceOne reg0 req1.image (mkDoc (mdOf req1 e1 r1)) rfl hcnt]
    simp

/-- Witness for C5: two concrete successful registrations of `m:1`. -/
theorem c5_witness :
    ∃ e r, mergedExamples reqSecond envLocalNew.extracted = some e
      ∧ mergedReadme reqSecond envLocalNew.extracted = some r
      ∧ ((registerModel decW encW envLocalNew reqSecond
            ((registerModel decW encW envLocalNew reqFull [] fsEmpty).2.1) fsEmpty).2.1).filter
            (fun m => m.image == reqFull.image)
          = [mkDoc (mdOf reqSecond e r)] :=
  c5_second_registration_replaces decW encW envLocalNew envLocalNew reqFull reqSecond
    [] fsEmpty fsEmpty rfl (by decide) rfl rfl

/-! ## Claim C9 -/

theorem caseStep_counts (dec : String → Option Json) (enc : Json → String)
    (c : BuiltinCase) (s : LoadState) :
    (caseStep dec enc c s).registered + (caseStep dec enc c s).failed
      = s.registered + s.failed + 1 := by
  unfold caseStep
  cases hp : c.metadataParses
  · simp [hp]
    omega
  · cases hex : optJsonFalsy (caseMergedExamples c)
    · cases hrd : optStrFalsy (caseMergedReadme c)
      · cases hint : (registerModelInternal dec enc c.localImageExists c.beh c.sid
            (caseMd c) s.reg s.fs).1 with
        | ok r =>
            simp [hp, hex, hrd, hint]
            omega
        | error e =>
            simp [hp, hex, hrd, hint]
            omega
      · simp [hp, hex, hrd]
        omega
    · simp [hp, hex]
      omega

theorem loadGo_counts (dec : String → Option Json) (enc : Json → String)
    (cases : List BuiltinCase) (s : LoadState) :
    (loadGo dec enc cases s).registered + (loadGo dec enc cases s).failed
      = s.registered + s.failed + cases.length := by
  induction cases generalizing s with
  | nil => simp [loadGo]
  | cons c cs ih =>
      simp only [loadGo, List.length_cons]
      rw [ih (caseStep dec enc c s), caseStep_counts]
      omega

theorem loadGo_append (dec : String → Option Json) (enc : Json → String)
    (as bs : List BuiltinCase) (s : LoadState) :
    loadGo dec enc (as ++ bs) s = loadGo dec enc bs (loadGo dec enc as s) := by
  induction as generalizing s with
  | nil => rfl
  | cons c cs ih =>
      simp only [List.cons_append, loadGo]
      exact ih (caseStep dec enc c s)

theorem doc_mem_replaceOne (reg : Registry) (img : String) (doc : RegisteredModel) :
    doc ∈ replaceOne reg img doc := by
  induction reg with
  | nil => exact List.mem_singleton.mpr rfl
  | cons a t ih =>
      unfold replaceOne
      cases ha : (a.image == img)
      · simp only [ha, Bool.false_eq_true, if_false]
        exact List.mem_cons.mpr (Or.inr ih)
      · simp only [ha, if_true]
        exact List.mem_cons_self _ _

theorem mem_image_replaceOne (reg : Registry) (img i : String) (doc : RegisteredModel)
    (hdoc : doc.image = img) (m : RegisteredModel) (hm : m ∈ reg) (hi : m.image = i) :
    ∃ m2 ∈ replaceOne reg img doc, m2.image = i := by
  induction reg with
  | nil => cases hm
  | cons a t ih =>
      unfold replaceOne
      cases ha : (a.image == img)
      · simp only [ha, Bool.false_eq_true, if_false]
        rcases List.mem_cons.mp hm with rfl | hm2
        · exact ⟨m, List.mem_cons_self _ _, hi⟩
        · obtain ⟨m2, hmem, him⟩ := ih hm2
          exact ⟨m2, List.mem_cons.mpr (Or.inr hmem), him⟩
      · simp only [ha, if_true]
        rcases List.mem_cons.mp hm with rfl | hm2
        · have haeq : m.image = img := by simpa using ha
          exact ⟨doc, List.mem_cons_self _ _, by rw [hdoc, ← haeq, hi]⟩
        · exact ⟨m, List.mem_cons.mpr (Or.inr hm2), hi⟩

theorem caseStep_pres (dec : String → Option Json) (enc : Json → String)
    (c : BuiltinCase) (s : LoadState) (i : String)
    (h : ∃ m ∈ s.reg, m.image = i) :
    ∃ m ∈ (caseStep dec enc c s).reg, m.image = i := by
  rcases caseStep_reg_cases dec enc c s with hc | ⟨hc, _, _⟩
  · rw [hc]; exact h
  · rw [hc]
    obtain ⟨m, hm, hi⟩ := h
    exact mem_image_replaceOne s.reg c.image i (mkDoc (caseMd c)) rfl m hm hi

theorem loadGo_pres (dec : String → Option Json) (enc : Json → String)
    (cases : List BuiltinCase) (s : LoadState) (i : String)
    (h : ∃ m ∈ s.reg, m.image = i) :
    ∃ m ∈ (loadGo dec enc cases s).reg, m.image = i := by
  induction cases generalizing s with
  | nil => exact h
  | cons c cs ih =>
      simp only [loadGo]
      exact ih (caseStep dec enc c s) (caseStep_pres dec enc c s i h)

theorem caseStep_success_present (dec : String → Option Json) (enc : Json → String)
    (c : BuiltinCase) (s : LoadState)
    (h : caseSucceeds dec enc c s = true) :
    ∃ m ∈ (caseStep dec enc c s).reg, m.image = c.image := by
  unfold caseSucceeds at h
  simp only [Bool.and_eq_true, Bool.not_eq_true'] at h
  obtain ⟨⟨⟨hp, hex⟩, hrd⟩, hok⟩ := h
  have hreg := rmi_ok_registry dec enc c.localImageExists c.beh c.sid (caseMd c) s.reg s.fs hok
  unfold caseStep
  cases hint : (registerModelInternal dec enc c.localImageExists c.beh c.sid
      (caseMd c) s.reg s.fs).1 with
  | error e =>
      rw [hint] at hok
      exact absurd hok (by simp [exceptIsOk])
  | ok r =>
      simp only [hp, Bool.not_true, Bool.false_eq_true, if_false, hex, hrd, hint]
      rw [hreg]
      exact ⟨mkDoc (caseMd c), doc_mem_replaceOne _ _ _, rfl⟩

/-- Claim C9: the startup bootstrap processes every built-in descriptor
(the two counters sum to the descriptor count), the aggregate error is
raised if and only if at least one model failed, any model that registers
successfully when the loop reaches it is present in the final registry
regardless of other models' failures, and `startup_event` swallows the
aggregate error, returning the partially-populated state so the process
still serves traffic. -/
theorem c9_bootstrap_aggregates (dec : String → Option Json) (enc : Json → String)
    (cases : List BuiltinCase) (reg : Registry) (fs : FS) :
    ((loadGo dec enc cases (LoadState.mk 0 0 reg fs)).registered
        + (loadGo dec enc cases (LoadState.mk 0 0 reg fs)).failed = cases.length)
  ∧ (exceptIsOk (loadBuiltinModels dec enc cases reg fs).1 = true
        ↔ (loadGo dec enc cases (LoadState.mk 0 0 reg fs)).failed = 0)
  ∧ (∀ pre c post, cases = pre ++ c :: post →
        caseSucceeds dec enc c (loadGo dec enc pre (LoadState.mk 0 0 reg fs)) = true →
        ∃ m ∈ (loadGo dec enc cases (LoadState.mk 0 0 reg fs)).reg, m.image = c.image)
  ∧ startupEvent dec enc true cases reg fs
      = Except.ok (loadBuiltinModels dec enc cases reg fs).2 := by
  refine ⟨?_, ?_, ?_, rfl⟩
  · have := loadGo_counts dec enc cases (LoadState.mk 0 0 reg fs)
    simpa using this
  · unfold loadBuiltinModels
    cases hf : (loadGo dec enc cases (LoadState.mk 0 0 reg fs)).failed with
    | zero => simp [hf, exceptIsOk]
    | succ n => simp [hf, exceptIsOk]
  · intro pre c post hcases hsucc
    subst hcases
    rw [loadGo_append]
    simp only [loadGo]
    exact loadGo_pres dec enc post _ c.image
      (caseStep_success_present dec enc c _ hsucc)

/-- Witness for C9: a failing descriptor followed by a succeeding one —
the success is persisted, and the aggregate error is raised because of the
one failure. -/
theorem c9_witness :
    (∃ m ∈ (loadGo decW encW [caseFail, caseOk] (LoadState.mk 0 0 [] fsEmpty)).reg,
        m.image = caseOk.image)
  ∧ (exceptIsOk (loadBuiltinModels decW encW [caseFail, caseOk] [] fsEmpty).1 = true
        ↔ (loadGo decW encW [caseFail, caseOk] (LoadState.mk 0 0 [] fsEmpty)).failed = 0) := by
  constructor
  · exact (c9_bootstrap_aggregates decW encW [caseFail, caseOk] [] fsEmpty).2.2.1
      [caseFail] caseOk [] rfl rfl
  · exact (c9_bootstrap_aggregates decW encW [caseFail, caseOk] [] fsEmpty).2.1
